import Mathlib

/-!
Verification development for the `mydata` MyTardis plugin app
(`api.py` and `models/uploader.py`).

The file gives a shallow embedding of the app's REST hooks and of the
experiment-matching query in `ExperimentAppResource.obj_get_list`, and
proves theorems about them.  Python runtime failures (missing GET keys,
unbound locals, `MultipleObjectsReturned`) are modelled with an explicit
error monad so that the embedding is faithful to the source's control flow.
-/

/-! ## Python string helpers -/

/-- Char-list prefix test: `listStarts p l` is true when `p` is a prefix of
`l`; it implements Python's `l.startswith(p)` on the underlying chars. -/
def listStarts : List Char → List Char → Bool
  | [], _ => true
  | _ :: _, [] => false
  | a :: as, b :: bs => a == b && listStarts as bs

/-- Python `s.startswith(p)`. -/
def strStarts (s p : String) : Bool := listStarts p.toList s.toList

/-- Python substring test `needle in hay` on char lists. -/
def hasSubstr (needle : List Char) : List Char → Bool
  | [] => listStarts needle []
  | c :: rest => listStarts needle (c :: rest) || hasSubstr needle rest

/-- Python `c in s` for a single character. -/
def strHasChar (s : String) (c : Char) : Bool := s.toList.contains c

/-- Python `s.strip()`: drop leading and trailing whitespace. -/
def pyStrip (s : String) : String :=
  String.mk (((s.toList.dropWhile Char.isWhitespace).reverse.dropWhile
    Char.isWhitespace).reverse)

/-- Python `s.lower()`. -/
def pyLower (s : String) : String := String.mk (s.toList.map Char.toLower)

/-! ## Runtime errors of the embedded Python code -/

/-- Python exceptions that the embedded code can raise and does not catch:
`KeyError`/`MultiValueDictKeyError` from a missing GET key,
`UnboundLocalError` from referencing a local name that was never assigned,
and Django's `MultipleObjectsReturned` from `.objects.get` with several
matching rows. -/
inductive PyErr where
  | keyError (key : String)
  | unboundLocal (nm : String)
  | multipleObjectsReturned
  deriving DecidableEq

/-! ## Data model for `ExperimentAppResource.obj_get_list` -/

/-- A `django.contrib.auth` user row: the two fields `obj_get_list` reads. -/
structure UserRec where
  username : String
  email : String
  deriving DecidableEq

/-- One `ExperimentParameter` row: `exp_param.name.name` and
`exp_param.string_value`. -/
structure ExpParam where
  pname : String
  string_value : String
  deriving DecidableEq

/-- One `ExperimentParameterSet` row of the MyData default-experiment schema,
together with its experiment's title, its experiment's id, and its parameter
rows in database iteration order. -/
structure ExpPSet where
  experimentTitle : String
  experimentId : Nat
  params : List ExpParam
  deriving DecidableEq

/-- The database state that `obj_get_list` queries: the auth user table and
the `ExperimentParameterSet` rows whose schema is
`http://mytardis.org/schemas/mydata/defaultexperiment`, in scan order. -/
structure Db where
  users : List UserRec
  psets : List ExpPSet
  deriving DecidableEq

/-- The GET parameters `obj_get_list` reads (`None` = key absent). -/
structure GetParams where
  title : Option String := none
  folder_structure : Option String := none
  user_folder_name : Option String := none
  group_folder_name : Option String := none
  uploader : Option String := none
  deriving DecidableEq

/-- Python `d[k]` on a GET dict: the value, or a `KeyError` when absent. -/
def getReq (o : Option String) (k : String) : Except PyErr String :=
  match o with
  | some v => Except.ok v
  | none => Except.error (PyErr.keyError k)

/-- The folder-structure guess made when `folder_structure` is not in GET
(api.py lines 294-306): a nonblank `group_folder_name` means
`'User Group / ...'`; otherwise a `user_folder_name` containing `'@'` means
`'Email / ...'`; otherwise `'Username / ...'`. -/
def guessFS (g : GetParams) : String :=
  match g.group_folder_name with
  | some gv =>
    if pyStrip gv != "" then "User Group / ..."
    else
      match g.user_folder_name with
      | some uv => if strHasChar uv '@' then "Email / ..." else "Username / ..."
      | none => "Username / ..."
  | none =>
    match g.user_folder_name with
    | some uv => if strHasChar uv '@' then "Email / ..." else "Username / ..."
    | none => "Username / ..."

/-- The folder structure in effect inside either branch: the GET value when
present, otherwise the guess. -/
def effectiveFS (g : GetParams) : String :=
  match g.folder_structure with
  | some fs => fs
  | none => guessFS g

/-- `need_to_match_user` (api.py lines 321-322 and 399-400). -/
def needUser (fs : String) : Bool :=
  strStarts fs "Username /" || strStarts fs "Email /"

/-- `need_to_match_group` (api.py lines 323 and 401). -/
def needGroup (fs : String) : Bool := strStarts fs "User Group /"

/-- `User.objects.filter(username=s)` over the embedded user table. -/
def usersByUsername (db : Db) (s : String) : List UserRec :=
  db.users.filter (fun u => u.username == s)

/-- `User.objects.filter(email__iexact=s)` over the embedded user table. -/
def usersByEmailCI (db : Db) (s : String) : List UserRec :=
  db.users.filter (fun u => pyLower u.email == pyLower s)

/-- The user-matching comparison of the scan loops: a parameter value equals,
case-insensitively, the matched user's username or email.  `none` stands for
the unassigned local `user_to_match`, which the loops never consult because
the comparison is short-circuited behind `need_to_match_user`. -/
def userCIMatch : Option UserRec → String → Bool
  | some u, sv => pyLower sv == pyLower u.username || pyLower sv == pyLower u.email
  | none, _ => false

/-- The group-matching comparison `exp_param.string_value == group_folder_name`;
`none` stands for the unassigned local `group_folder_name`. -/
def gfnMatch : Option String → String → Bool
  | some g, sv => sv == g
  | none, _ => false

/-- `user_to_match` resolution in the title branch (api.py lines 330-343):
`User.objects.get` with the `UnknownUser` placeholder on `DoesNotExist`
(the `UnknownUser` class is in scope there), and an uncaught
`MultipleObjectsReturned` when several rows match. -/
def resolveUserTitle (db : Db) (fs ufn : String) : Except PyErr UserRec :=
  if strStarts fs "Username /" then
    match usersByUsername db ufn with
    | [] => Except.ok ⟨ufn, "UNKNOWN"⟩
    | [u] => Except.ok u
    | _ :: _ :: _ => Except.error PyErr.multipleObjectsReturned
  else
    match usersByEmailCI db ufn with
    | [] => Except.ok ⟨"UNKNOWN", ufn⟩
    | [u] => Except.ok u
    | _ :: _ :: _ => Except.error PyErr.multipleObjectsReturned

/-- `user_to_match` resolution in the uploader branch (api.py lines 403-416).
The `except User.DoesNotExist` handler refers to `UnknownUser`, but that
class statement sits inside the title branch, and the title branch always
returns before the uploader branch is reached, so in this branch the name
`UnknownUser` is an unassigned local and the handler raises
`UnboundLocalError`. -/
def resolveUserUploader (db : Db) (fs ufn : String) : Except PyErr UserRec :=
  if strStarts fs "Username /" then
    match usersByUsername db ufn with
    | [] => Except.error (PyErr.unboundLocal "UnknownUser")
    | [u] => Except.ok u
    | _ :: _ :: _ => Except.error PyErr.multipleObjectsReturned
  else
    match usersByEmailCI db ufn with
    | [] => Except.error (PyErr.unboundLocal "UnknownUser")
    | [u] => Except.ok u
    | _ :: _ :: _ => Except.error PyErr.multipleObjectsReturned

/-- The per-parameter-set condition of the title-branch scan (api.py lines
358-374): `matched_user`/`matched_group` accumulated over the parameter rows,
then `(need_user and matched_user) or (need_group and matched_group) or
(not need_user and not need_group)`. -/
def titleMatchCond (nu ng : Bool) (u : Option UserRec) (gfn : Option String)
    (ps : ExpPSet) : Bool :=
  let matched_user := ps.params.any
    (fun p => nu && p.pname == "user_folder_name" && userCIMatch u p.string_value)
  let matched_group := ps.params.any
    (fun p => ng && p.pname == "group_folder_name" && gfnMatch gfn p.string_value)
  (nu && matched_user) || (ng && matched_group) || (!nu && !ng)

/-- The title-branch scan loop (api.py lines 355-380): return the first
parameter set that satisfies the match condition and whose experiment is in
`Experiment.safe.all(request.user)` (modelled by `acc`); continue otherwise;
`[]` when the loop finishes. -/
def titleScan (nu ng : Bool) (u : Option UserRec) (gfn : Option String)
    (acc : Nat → Bool) : List ExpPSet → List Nat
  | [] => []
  | ps :: rest =>
    if titleMatchCond nu ng u gfn ps then
      if acc ps.experimentId then [ps.experimentId]
      else titleScan nu ng u gfn acc rest
    else titleScan nu ng u gfn acc rest

/-- The title branch of `obj_get_list` (api.py lines 313-380), entered when
GET has `title` and one of `user_folder_name`/`group_folder_name`. -/
def titleBranch (g : GetParams) (db : Db) (acc : Nat → Bool) :
    Except PyErr (List Nat) :=
  match getReq g.title "title" with
  | Except.error e => Except.error e
  | Except.ok title =>
    let fs := effectiveFS g
    let nu := needUser fs
    let ng := needGroup fs
    let uRes : Except PyErr (Option UserRec) :=
      if nu then
        match getReq g.user_folder_name "user_folder_name" with
        | Except.error e => Except.error e
        | Except.ok ufn => (resolveUserTitle db fs ufn).map some
      else Except.ok none
    match uRes with
    | Except.error e => Except.error e
    | Except.ok uOpt =>
      let gRes : Except PyErr (Option String) :=
        if ng then
          match getReq g.group_folder_name "group_folder_name" with
          | Except.error e => Except.error e
          | Except.ok gfn => Except.ok (some gfn)
        else Except.ok none
      match gRes with
      | Except.error e => Except.error e
      | Except.ok gfnOpt =>
        Except.ok (titleScan nu ng uOpt gfnOpt acc
          (db.psets.filter (fun ps => ps.experimentTitle == title)))

/-- One pass of the uploader-branch inner loop over parameter rows (api.py
lines 433-446), accumulating `matched_uploader_uuid`, `matched_user`,
`matched_group`.  The group comparison is NOT guarded by
`need_to_match_group` there: when the row is named `group_folder_name` and
the local `group_folder_name` was never assigned (`gfn = none`), the
comparison raises `UnboundLocalError`. -/
def upParamScan (uuid : String) (nu : Bool) (u : Option UserRec)
    (gfn : Option String) :
    List ExpParam → Bool → Bool → Bool → Except PyErr (Bool × Bool × Bool)
  | [], mUU, mu, mg => Except.ok (mUU, mu, mg)
  | p :: rest, mUU, mu, mg =>
    let mUU' := mUU || (p.pname == "uploader" && p.string_value == uuid)
    let mu' := mu ||
      (nu && p.pname == "user_folder_name" && userCIMatch u p.string_value)
    if p.pname == "group_folder_name" then
      match gfn with
      | none => Except.error (PyErr.unboundLocal "group_folder_name")
      | some gv => upParamScan uuid nu u gfn rest mUU' mu'
          (mg || (p.string_value == gv))
    else upParamScan uuid nu u gfn rest mUU' mu' mg

/-- The uploader-branch scan loop (api.py lines 427-455): return the first
parameter set with `matched_uploader_uuid and (need_user and matched_user or
need_group and matched_group)` whose experiment is accessible; `[]` when the
loop finishes. -/
def upScan (uuid : String) (nu ng : Bool) (u : Option UserRec)
    (gfn : Option String) (acc : Nat → Bool) :
    List ExpPSet → Except PyErr (List Nat)
  | [] => Except.ok []
  | ps :: rest =>
    match upParamScan uuid nu u gfn ps.params false false false with
    | Except.error e => Except.error e
    | Except.ok (mUU, mu, mg) =>
      if mUU && ((nu && mu) || (ng && mg)) then
        if acc ps.experimentId then Except.ok [ps.experimentId]
        else upScan uuid nu ng u gfn acc rest
      else upScan uuid nu ng u gfn acc rest

/-- The uploader branch of `obj_get_list` (api.py lines 391-455), entered when
GET has `uploader` and one of `user_folder_name`/`group_folder_name` and the
title branch was not taken. -/
def uploaderBranch (g : GetParams) (db : Db) (acc : Nat → Bool) :
    Except PyErr (List Nat) :=
  match getReq g.uploader "uploader" with
  | Except.error e => Except.error e
  | Except.ok uuid =>
    let fs := effectiveFS g
    let nu := needUser fs
    let ng := needGroup fs
    let uRes : Except PyErr (Option UserRec) :=
      if nu then
        match getReq g.user_folder_name "user_folder_name" with
        | Except.error e => Except.error e
        | Except.ok ufn => (resolveUserUploader db fs ufn).map some
      else Except.ok none
    match uRes with
    | Except.error e => Except.error e
    | Except.ok uOpt =>
      let gRes : Except PyErr (Option String) :=
        if ng then
          match getReq g.group_folder_name "group_folder_name" with
          | Except.error e => Except.error e
          | Except.ok gfn => Except.ok (some gfn)
        else Except.ok none
      match gRes with
      | Except.error e => Except.error e
      | Except.ok gfnOpt => upScan uuid nu ng uOpt gfnOpt acc db.psets

/-- `ExperimentAppResource.obj_get_list` (api.py lines 284-458): the title
branch, else the uploader branch, else fall through to the superclass
(`Except.ok none`).  The result inside `some` is the list of experiment ids
returned. -/
def obj_get_list (g : GetParams) (db : Db) (acc : Nat → Bool) :
    Except PyErr (Option (List Nat)) :=
  if g.title.isSome && (g.user_folder_name.isSome || g.group_folder_name.isSome)
  then (titleBranch g db acc).map some
  else if g.uploader.isSome &&
      (g.user_folder_name.isSome || g.group_folder_name.isSome)
  then (uploaderBranch g db acc).map some
  else Except.ok none

/-! ## `ACLAuthorization` (api.py lines 39-119) -/

/-- The facts about the requesting user that the authorization hooks read:
`user.is_authenticated()` and `len(facilities_managed_by(user))`. -/
structure AuthUser where
  authenticated : Bool
  managedFacilities : Nat
  deriving DecidableEq

/-- The kind of `bundle.obj` the hooks dispatch on. -/
inductive ApiObj where
  | uploaderObj
  | regRequestObj
  | settingObj
  | otherObj
  deriving DecidableEq

/-- `is_facility_manager`: authenticated and managing at least one facility. -/
def isFacilityManager (u : AuthUser) : Bool :=
  u.authenticated && decide (0 < u.managedFacilities)

/-- `ACLAuthorization.create_detail` (api.py lines 83-94): for `Uploader`,
`UploaderRegistrationRequest` and `UploaderSetting` objects the decision is
`is_facility_manager`; anything else defers to the superclass
(`superResult`). -/
def create_detail (u : AuthUser) (obj : ApiObj) (superResult : Bool) : Bool :=
  match obj with
  | ApiObj.uploaderObj => isFacilityManager u
  | ApiObj.regRequestObj => isFacilityManager u
  | ApiObj.settingObj => isFacilityManager u
  | ApiObj.otherObj => superResult

/-- `ACLAuthorization.update_detail` for an `Uploader` object (api.py lines
99-113): facility manager and `bundle.data['uuid'] == bundle.obj.uuid`. -/
def update_detail_uploader (u : AuthUser) (dataUuid objUuid : String) : Bool :=
  isFacilityManager u && dataUuid == objUuid

/-! ## `UploaderAppResource.dehydrate` (api.py lines 143-155) -/

/-- A serialized field value in `bundle.data`. -/
inductive FieldVal where
  | vs (s : String)
  | vos (s : Option String)
  | vn (n : Nat)
  | von (n : Option Nat)
  | vsettings (l : List (String × String))
  deriving DecidableEq

/-- A fully populated uploader record as tastypie serializes it before
`dehydrate` runs: every model field of `Uploader` (models/uploader.py lines
47-103) plus the resource-level entries (`id`, `resource_uri`, `uuid`, the
`settings` relation and its two timestamps, referenced by api.py). -/
structure UploaderRecord where
  id : Nat
  resource_uri : String
  uuid : String
  name : String
  contact_name : String
  contact_email : String
  user_agent_name : Option String
  user_agent_version : Option String
  user_agent_install_location : Option String
  os_platform : Option String
  os_system : Option String
  os_release : Option String
  os_version : Option String
  os_username : Option String
  machine : Option String
  architecture : Option String
  processor : Option String
  memory : Option String
  cpus : Option Nat
  disk_usage : Option String
  data_path : Option String
  default_user : Option String
  interface : String
  mac_address : String
  ipv4_address : Option String
  ipv6_address : Option String
  subnet_mask : Option String
  hostname : Option String
  wan_ip_address : Option String
  created_time : Option String
  updated_time : Option String
  settings : List (String × String)
  settings_updated : Option String
  settings_downloaded : Option String
  deriving DecidableEq

/-- `bundle.data` as produced by the framework's full dehydrate: one entry per
serialized field. -/
def full_dehydrate (u : UploaderRecord) : List (String × FieldVal) :=
  [("id", FieldVal.vn u.id),
   ("resource_uri", FieldVal.vs u.resource_uri),
   ("uuid", FieldVal.vs u.uuid),
   ("name", FieldVal.vs u.name),
   ("contact_name", FieldVal.vs u.contact_name),
   ("contact_email", FieldVal.vs u.contact_email),
   ("user_agent_name", FieldVal.vos u.user_agent_name),
   ("user_agent_version", FieldVal.vos u.user_agent_version),
   ("user_agent_install_location", FieldVal.vos u.user_agent_install_location),
   ("os_platform", FieldVal.vos u.os_platform),
   ("os_system", FieldVal.vos u.os_system),
   ("os_release", FieldVal.vos u.os_release),
   ("os_version", FieldVal.vos u.os_version),
   ("os_username", FieldVal.vos u.os_username),
   ("machine", FieldVal.vos u.machine),
   ("architecture", FieldVal.vos u.architecture),
   ("processor", FieldVal.vos u.processor),
   ("memory", FieldVal.vos u.memory),
   ("cpus", FieldVal.von u.cpus),
   ("disk_usage", FieldVal.vos u.disk_usage),
   ("data_path", FieldVal.vos u.data_path),
   ("default_user", FieldVal.vos u.default_user),
   ("interface", FieldVal.vs u.interface),
   ("mac_address", FieldVal.vs u.mac_address),
   ("ipv4_address", FieldVal.vos u.ipv4_address),
   ("ipv6_address", FieldVal.vos u.ipv6_address),
   ("subnet_mask", FieldVal.vos u.subnet_mask),
   ("hostname", FieldVal.vos u.hostname),
   ("wan_ip_address", FieldVal.vos u.wan_ip_address),
   ("created_time", FieldVal.vos u.created_time),
   ("updated_time", FieldVal.vos u.updated_time),
   ("settings", FieldVal.vsettings u.settings),
   ("settings_updated", FieldVal.vos u.settings_updated),
   ("settings_downloaded", FieldVal.vos u.settings_downloaded)]

/-- `accessible_keys` (api.py lines 150-151). -/
def accessible_keys : List String :=
  ["id", "resource_uri", "name", "settings", "settings_updated",
   "settings_downloaded"]

/-- `UploaderAppResource.dehydrate` (api.py lines 143-155): delete every
`bundle.data` key that is not in `accessible_keys`. -/
def dehydrate (d : List (String × FieldVal)) : List (String × FieldVal) :=
  d.filter (fun kv => accessible_keys.contains kv.1)

/-! ## `UploaderAppResource.hydrate_m2m` (api.py lines 157-178) -/

/-- Modelled from the spec: an `UploaderSetting` row, a "key/value pair scoped
to an uploader".  The `UploaderSetting` model class is imported by api.py but
absent from the repository excerpt, so its shape is taken from the spec's
data-model section. -/
structure SettingRow where
  uploaderId : Nat
  key : String
  value : String
  deriving DecidableEq

/-- The settings table carries at most one row per (uploader, key) pair. -/
def settingsUnique (tbl : List SettingRow) : Prop :=
  tbl.Pairwise (fun a b => ¬(a.uploaderId = b.uploaderId ∧ a.key = b.key))

/-- One iteration of the `hydrate_m2m` loop (api.py lines 163-173):
`UploaderSetting.objects.get(uploader=..., key=...)` then overwrite the value,
or create a new row on `DoesNotExist`; `MultipleObjectsReturned` is uncaught
when several rows match. -/
def upsertOne (tbl : List SettingRow) (uid : Nat) (k v : String) :
    Except PyErr (List SettingRow) :=
  match tbl.filter (fun r => r.uploaderId == uid && r.key == k) with
  | [] => Except.ok (tbl ++ [⟨uid, k, v⟩])
  | [_] => Except.ok (tbl.map
      (fun r => if r.uploaderId == uid && r.key == k then ⟨r.uploaderId, r.key, v⟩ else r))
  | _ :: _ :: _ => Except.error PyErr.multipleObjectsReturned

/-- The `bundle.obj` fields `hydrate_m2m` touches: the primary key (`none`
when the object is unsaved, and Python treats `id == 0` as falsy) and
`settings_updated`. -/
structure UploaderObj where
  id : Option Nat
  settings_updated : Option Nat
  deriving DecidableEq

/-- Python truthiness of `getattr(bundle.obj, 'id', False)`. -/
def idTruthy : Option Nat → Bool
  | none => false
  | some i => decide (i ≠ 0)

/-- The parts of `bundle.data` that `hydrate_m2m` reads: the optional
`settings` list of (key, value) entries, and the remaining payload entries,
which it leaves untouched. -/
structure UpBundleData where
  settings : Option (List (String × String))
  rest : List (String × String)
  deriving DecidableEq

/-- Fold of `upsertOne` over the settings entries, in payload order. -/
def upsertAll (uid : Nat) : List (String × String) → List SettingRow →
    Except PyErr (List SettingRow)
  | [], tbl => Except.ok tbl
  | kv :: rest, tbl =>
    match upsertOne tbl uid kv.1 kv.2 with
    | Except.error e => Except.error e
    | Except.ok tbl' => upsertAll uid rest tbl'

/-- `UploaderAppResource.hydrate_m2m` (api.py lines 157-178): when the object
has a (truthy) id and the payload has a `settings` list, upsert every entry,
delete `settings` from the payload and stamp `settings_updated` with the
current time; the returned triple (settings table, object, payload) is what
the superclass hydration then sees. -/
def hydrate_m2m (now : Nat) (tbl : List SettingRow) (obj : UploaderObj)
    (d : UpBundleData) :
    Except PyErr (List SettingRow × UploaderObj × UpBundleData) :=
  match idTruthy obj.id, obj.id, d.settings with
  | true, some uid, some entries =>
    match upsertAll uid entries tbl with
    | Except.error e => Except.error e
    | Except.ok tbl' =>
      Except.ok (tbl', ⟨obj.id, some now⟩, ⟨none, d.rest⟩)
  | _, _, _ => Except.ok (tbl, obj, d)

/-! ## `UploaderAppResource.obj_create` / `obj_update` and
`UploaderRegistrationRequestAppResource.hydrate` (api.py lines 180-200,
247-251) -/

/-- The `bundle.data` entries the uploader CRUD hooks write. -/
structure CrudData where
  created_time : Option Nat
  updated_time : Option Nat
  wan_ip_address : Option String
  deriving DecidableEq

/-- `UploaderAppResource.obj_create` stamping (api.py lines 180-187):
`created_time` and `updated_time` each get `datetime.now()` (two calls,
`now1` then `now2`), and `wan_ip_address` gets `get_ip(request)` when that
is not `None`. -/
def uploader_obj_create_stamp (now1 now2 : Nat) (ip : Option String)
    (d : CrudData) : CrudData :=
  let d1 : CrudData := ⟨some now1, some now2, d.wan_ip_address⟩
  match ip with
  | some i => ⟨d1.created_time, d1.updated_time, some i⟩
  | none => d1

/-- `UploaderAppResource.obj_update` stamping (api.py lines 189-200): when the
`obj_update_done` workaround flag is already set the method returns `None`
without touching the data; otherwise it stamps `updated_time` and, when an IP
is determinable, `wan_ip_address`. -/
def uploader_obj_update_stamp (now : Nat) (ip : Option String) (d : CrudData)
    (done : Bool) : Option CrudData :=
  if done then none
  else
    let d1 : CrudData := ⟨d.created_time, some now, d.wan_ip_address⟩
    match ip with
    | some i => some ⟨d1.created_time, d1.updated_time, some i⟩
    | none => some d1

/-- The `bundle.data` entry `UploaderRegistrationRequestAppResource.hydrate`
writes, plus the untouched remainder of the payload. -/
structure RegReqData where
  request_time : Option Nat
  rest : List (String × String)
  deriving DecidableEq

/-- `UploaderRegistrationRequestAppResource.hydrate` (api.py lines 247-251):
stamp `request_time` with the current time. -/
def reg_request_hydrate (now : Nat) (d : RegReqData) : RegReqData :=
  ⟨some now, d.rest⟩

/-! ## `DataFileAppResource.obj_create` error handling (api.py lines 472-484) -/

/-- Outcome of the superclass `obj_create` call inside the `try`. -/
inductive CreationOutcome where
  | created (dfId : Nat)
  | integrityErr (msg : String)
  | otherErr (msg : String)
  deriving DecidableEq

/-- What `DataFileAppResource.obj_create` produces for each outcome:
success, an `ImmediateHttpResponse` carrying HTTP 409, or the re-raised
original error. -/
inductive CreationResult where
  | created (dfId : Nat)
  | http409
  | integrityErr (msg : String)
  | otherErr (msg : String)
  deriving DecidableEq

/-- The `try/except IntegrityError` wrapper of `DataFileAppResource.obj_create`
(api.py lines 478-484): an `IntegrityError` whose message contains
`"duplicate key"` becomes HTTP 409; any other `IntegrityError` is re-raised;
other exceptions propagate untouched. -/
def df_obj_create (outcome : CreationOutcome) : CreationResult :=
  match outcome with
  | CreationOutcome.created i => CreationResult.created i
  | CreationOutcome.integrityErr msg =>
    if hasSubstr "duplicate key".toList msg.toList then CreationResult.http409
    else CreationResult.integrityErr msg
  | CreationOutcome.otherErr m => CreationResult.otherErr m

/-! ## Database uniqueness constraints (models/uploader.py lines 91, 166-169) -/

/-- A database integrity error. -/
inductive DbErr where
  | integrity
  deriving DecidableEq

/-- An `UploaderRegistrationRequest` row: primary key, the two columns of the
`unique_together` constraint, and the remaining payload collapsed into one
field. -/
structure RegRow where
  rid : Nat
  uploaderId : Nat
  fingerprint : String
  payload : String
  deriving DecidableEq

/-- At most one registration request per (uploader, fingerprint) pair. -/
def regUnique (tbl : List RegRow) : Prop :=
  tbl.Pairwise (fun a b => ¬(a.uploaderId = b.uploaderId ∧ a.fingerprint = b.fingerprint))

/-- Primary keys are pairwise distinct. -/
def idUnique (tbl : List RegRow) : Prop :=
  tbl.Pairwise (fun a b => a.rid ≠ b.rid)

/-- An operation on the registration-request table: insert a new row, or
update the row with a given primary key to new contents. -/
inductive RegOp where
  | insertRow (r : RegRow)
  | updateRow (i : Nat) (r : RegRow)
  deriving DecidableEq

/-- Modelled from the spec: the host database enforcing the
`unique_together = ['uploader', 'requester_key_fingerprint']` constraint
declared in `UploaderRegistrationRequest.Meta` (models/uploader.py lines
166-169) — the spec delegates "all relational integrity" to the host
ORM/database.  An insert or update that would leave two rows sharing the
(uploader, fingerprint) pair is rejected with an integrity error. -/
def applyRegOp (tbl : List RegRow) : RegOp → Except DbErr (List RegRow)
  | RegOp.insertRow r =>
    if tbl.any (fun x => x.uploaderId == r.uploaderId &&
        x.fingerprint == r.fingerprint)
    then Except.error DbErr.integrity
    else Except.ok (tbl ++ [r])
  | RegOp.updateRow i r =>
    if tbl.any (fun x => x.rid != i && x.uploaderId == r.uploaderId &&
        x.fingerprint == r.fingerprint)
    then Except.error DbErr.integrity
    else Except.ok (tbl.map (fun x => if x.rid == i then r else x))

/-- An `Uploader` row reduced to the fields relevant to identification:
primary key, the unique `mac_address` column, and `uuid`. -/
structure UploaderRow where
  uid : Nat
  mac_address : String
  uuid : String
  deriving DecidableEq

/-- No two uploader rows share a MAC address. -/
def macUnique (tbl : List UploaderRow) : Prop :=
  tbl.Pairwise (fun a b => a.mac_address ≠ b.mac_address)

/-- Modelled from the spec: the host database enforcing
`mac_address = models.CharField(..., unique=True, ...)` (models/uploader.py
line 91): an insert duplicating a MAC address is rejected. -/
def insertUploaderRow (tbl : List UploaderRow) (r : UploaderRow) :
    Except DbErr (List UploaderRow) :=
  if tbl.any (fun x => x.mac_address == r.mac_address)
  then Except.error DbErr.integrity
  else Except.ok (tbl ++ [r])

/-- The fields the REST API exposes for filtering uploader queries
(`UploaderAppResource.Meta.filtering`, api.py lines 137-140). -/
def uploaderFilteringFields : List String := ["uuid", "name"]

/-! ## Claim-side characterisations (refinement targets) -/

/-- Claim-side: the user account the folder name is matched against — the
account whose username (for a `Username /` structure) or email
(case-insensitively, for an `Email /` structure) equals the folder name, or
the `UNKNOWN` placeholder user when no account matches. -/
def userToMatch (db : Db) (fs ufn : String) : UserRec :=
  if strStarts fs "Username /" then
    match db.users.find? (fun u => u.username == ufn) with
    | some u => u
    | none => ⟨ufn, "UNKNOWN"⟩
  else
    match db.users.find? (fun u => pyLower u.email == pyLower ufn) with
    | some u => u
    | none => ⟨"UNKNOWN", ufn⟩

/-- Claim-side: the existing user account matched by the folder name, when
there is one. -/
def userLookup (db : Db) (fs ufn : String) : Option UserRec :=
  if strStarts fs "Username /" then db.users.find? (fun u => u.username == ufn)
  else db.users.find? (fun u => pyLower u.email == pyLower ufn)

/-- Claim-side condition for the title query (claim C1): the parameter set has
a `user_folder_name` parameter equal, case-insensitively, to the matched
user's username or email (when the folder structure requires a user match),
or a `group_folder_name` parameter equal to the given group folder name (when
it requires a group match); with neither requirement every set qualifies. -/
def specTitleMatch (nu ng : Bool) (u : UserRec) (gfnOpt : Option String)
    (ps : ExpPSet) : Bool :=
  (nu && ps.params.any (fun p => (p.pname == "user_folder_name") &&
    (pyLower p.string_value == pyLower u.username ||
     pyLower p.string_value == pyLower u.email)))
  || (ng && ps.params.any (fun p => (p.pname == "group_folder_name") &&
       gfnMatch gfnOpt p.string_value))
  || (!nu && !ng)

/-- The result shape shared by both scan loops: a one-element list for the
first hit, `[]` when there is none. -/
def firstHit (o : Option ExpPSet) : List Nat :=
  match o with
  | some ps => [ps.experimentId]
  | none => []

/-- Claim-side expected result of the title query: the first parameter set, in
scan order over the default-experiment sets whose experiment title equals the
given title, that matches and whose experiment is accessible — as a
one-element list — or `[]`. -/
def specTitleExpected (g : GetParams) (db : Db) (acc : Nat → Bool)
    (t : String) : List Nat :=
  let fs := effectiveFS g
  let nu := needUser fs
  let ng := needGroup fs
  let u := userToMatch db fs (g.user_folder_name.getD "")
  let gfnOpt := if ng then g.group_folder_name else none
  firstHit ((db.psets.filter (fun ps => ps.experimentTitle == t)).find?
    (fun ps => specTitleMatch nu ng u gfnOpt ps && acc ps.experimentId))

/-- Claim-side condition for the uploader query (claim C2): a single parameter
set contains both an `uploader` parameter equal to the given UUID and a
matching user folder name (case-insensitive against the matched account's
username or email) or matching group folder name. -/
def specUpMatch (uuid : String) (nu ng : Bool) (u : UserRec)
    (gfnOpt : Option String) (ps : ExpPSet) : Bool :=
  ps.params.any (fun p => (p.pname == "uploader") && (p.string_value == uuid))
  && ((nu && ps.params.any (fun p => (p.pname == "user_folder_name") &&
        (pyLower p.string_value == pyLower u.username ||
         pyLower p.string_value == pyLower u.email)))
      || (ng && ps.params.any (fun p => (p.pname == "group_folder_name") &&
           gfnMatch gfnOpt p.string_value)))

/-- Claim-side expected result of the uploader query: the first parameter set
in scan order satisfying the conjunction and whose experiment is accessible,
as a one-element list, or `[]`. -/
def specUploaderExpected (g : GetParams) (db : Db) (acc : Nat → Bool)
    (uuid : String) : List Nat :=
  let fs := effectiveFS g
  let nu := needUser fs
  let ng := needGroup fs
  let u := (userLookup db fs (g.user_folder_name.getD "")).getD ⟨"", ""⟩
  let gfnOpt := if ng then g.group_folder_name else none
  firstHit (db.psets.find?
    (fun ps => specUpMatch uuid nu ng u gfnOpt ps && acc ps.experimentId))

/-- Claim-side upsert of one settings entry (claim C6): overwrite the value of
the existing (uploader, key) row, or create a new row. -/
def specUpsert (tbl : List SettingRow) (uid : Nat) (k v : String) :
    List SettingRow :=
  if tbl.any (fun r => r.uploaderId == uid && r.key == k) then
    tbl.map (fun r => if r.uploaderId == uid && r.key == k
      then ⟨r.uploaderId, r.key, v⟩ else r)
  else tbl ++ [⟨uid, k, v⟩]

/-! ## Concrete inputs for witnesses and counterexamples -/

/-- Witness request for the title query: `title` and `user_folder_name`. -/
def c1wG : GetParams := { title := some "T", user_folder_name := some "alice" }

/-- Witness database: no user accounts, one default-experiment parameter set
titled `T` naming user folder `alice`, experiment id 7. -/
def c1wDb : Db := ⟨[], [⟨"T", 7, [⟨"user_folder_name", "alice"⟩]⟩]⟩

/-- Counterexample request for C1: `title` and `group_folder_name` present,
but a `folder_structure` that requires a user match. -/
def c1xG : GetParams :=
  { title := some "T2", group_folder_name := some "G",
    folder_structure := some "Username / Dataset" }

/-- Witness request for the uploader query. -/
def c2wG : GetParams := { uploader := some "U1", user_folder_name := some "bob" }

/-- Witness database for C2: one account `bob`, one parameter set carrying
the uploader UUID `U1` and user folder `bob`, experiment id 9. -/
def c2wDb : Db :=
  ⟨[⟨"bob", "bob@example.org"⟩],
   [⟨"E", 9, [⟨"uploader", "U1"⟩, ⟨"user_folder_name", "bob"⟩]⟩]⟩

/-- Counterexample request for C2: uploader query for a user folder name with
no matching account. -/
def c2xG : GetParams :=
  { uploader := some "U3", user_folder_name := some "carol" }

/-- Failing input for C10: uploader query whose `user_folder_name` matches no
account, forcing the `UnknownUser` fallback. -/
def c10G : GetParams :=
  { uploader := some "U2", user_folder_name := some "nobody" }

/-- Concrete uploader record for the C9 witness. -/
def c9u1 : UploaderRecord :=
  { id := 1, resource_uri := "/api/v1/mydata/uploader/1/", uuid := "uuid-1",
    name := "Microscope PC", contact_name := "Ada", contact_email := "ada@x.org",
    user_agent_name := some "MyData", user_agent_version := some "0.1",
    user_agent_install_location := some "C:\\MyData",
    os_platform := some "Windows-7", os_system := some "Windows",
    os_release := some "7", os_version := some "6.1", os_username := some "ada",
    machine := some "AMD64", architecture := some "64bit",
    processor := some "Intel", memory := some "8GB", cpus := some 4,
    disk_usage := some "50%", data_path := some "D:\\Data",
    default_user := some "ada", interface := "eth0",
    mac_address := "00:11:22:33:44:55", ipv4_address := some "10.0.0.2",
    ipv6_address := none, subnet_mask := some "255.255.255.0",
    hostname := some "scope-pc", wan_ip_address := some "1.2.3.4",
    created_time := some "2015-01-01", updated_time := some "2015-06-01",
    settings := [("max_upload_threads", "4")],
    settings_updated := some "2015-06-01", settings_downloaded := none }

/-- Second uploader record for the C9 witness: agrees with `c9u1` on every
whitelisted field, differs in hardware, OS, network and contact fields. -/
def c9u2 : UploaderRecord :=
  { c9u1 with
    uuid := "uuid-2"
    contact_name := "Bob"
    contact_email := "bob@y.org"
    os_platform := some "Linux"
    os_system := some "Linux"
    machine := some "x86_64"
    mac_address := "66:77:88:99:aa:bb"
    ipv4_address := some "10.0.9.9"
    hostname := some "other-pc"
    wan_ip_address := none
    created_time := some "2016-01-01" }

/-! ## Helper lemmas -/

theorem anyGated {α : Type} (c : Bool) (f : α → Bool) (l : List α) :
    l.any (fun a => c && f a) = (c && l.any f) := by
  induction l with
  | nil => cases c <;> simp
  | cons a t ih => cases c <;> simp_all

theorem find?_eq_filter_head {α : Type} (p : α → Bool) (l : List α) :
    l.find? p = (l.filter p).head? := by
  induction l with
  | nil => simp
  | cons a t ih =>
    by_cases h : p a = true
    · rw [List.find?_cons_of_pos t h, List.filter_cons_of_pos h]; rfl
    · rw [List.find?_cons_of_neg t h, List.filter_cons_of_neg h, ih]

theorem filter_len_le_one {α : Type} {R : α → α → Prop} (p : α → Bool)
    (l : List α) (h : l.Pairwise R)
    (hp : ∀ a b, p a = true → p b = true → R a b → False) :
    (l.filter p).length ≤ 1 := by
  induction l with
  | nil => simp
  | cons a t ih =>
    rcases List.pairwise_cons.mp h with ⟨ha, ht⟩
    by_cases hpa : p a = true
    · have hnil : t.filter p = [] := by
        rcases hf : t.filter p with _ | ⟨x, xs⟩
        · rfl
        · exfalso
          have hx : x ∈ t.filter p := by rw [hf]; exact List.mem_cons_self x xs
          exact hp a x hpa (List.of_mem_filter hx) (ha x (List.mem_of_mem_filter hx))
      simp [List.filter_cons, hpa, hnil]
    · simp only [List.filter_cons, hpa, if_neg]
      simpa using ih ht

theorem find?_congrF {α : Type} (p q : α → Bool) (l : List α)
    (h : ∀ a, p a = q a) : l.find? p = l.find? q := by
  have hpq : p = q := funext h
  rw [hpq]

theorem resolveUserTitle_eq (db : Db) (fs ufn : String)
    (hU : ∀ s, (db.users.filter (fun u => u.username == s)).length ≤ 1)
    (hE : ∀ s,
      (db.users.filter (fun u => pyLower u.email == pyLower s)).length ≤ 1) :
    resolveUserTitle db fs ufn = Except.ok (userToMatch db fs ufn) := by
  unfold resolveUserTitle userToMatch usersByUsername usersByEmailCI
  by_cases hfs : strStarts fs "Username /" = true
  · rw [if_pos hfs, if_pos hfs, find?_eq_filter_head]
    rcases hf : db.users.filter (fun u => u.username == ufn) with _ | ⟨u, _ | ⟨v, r2⟩⟩
    · rw [hf]; rfl
    · rw [hf]; rfl
    · exfalso
      have hlen := hU ufn
      rw [hf] at hlen
      simp at hlen
  · rw [if_neg hfs, if_neg hfs, find?_eq_filter_head]
    rcases hf : db.users.filter (fun u => pyLower u.email == pyLower ufn) with
      _ | ⟨u, _ | ⟨v, r2⟩⟩
    · rw [hf]; rfl
    · rw [hf]; rfl
    · exfalso
      have hlen := hE ufn
      rw [hf] at hlen
      simp at hlen

theorem resolveUserUploader_eq (db : Db) (fs ufn : String) (u₀ : UserRec)
    (hU : ∀ s, (db.users.filter (fun u => u.username == s)).length ≤ 1)
    (hE : ∀ s,
      (db.users.filter (fun u => pyLower u.email == pyLower s)).length ≤ 1)
    (hfound : userLookup db fs ufn = some u₀) :
    resolveUserUploader db fs ufn = Except.ok u₀ := by
  unfold resolveUserUploader usersByUsername usersByEmailCI
  unfold userLookup at hfound
  by_cases hfs : strStarts fs "Username /" = true
  · rw [if_pos hfs] at hfound
    rw [if_pos hfs, find?_eq_filter_head] at *
    rcases hf : db.users.filter (fun u => u.username == ufn) with _ | ⟨u, _ | ⟨v, r2⟩⟩
    · rw [hf] at hfound; simp at hfound
    · rw [hf] at hfound
      rw [hf]
      have hu : u = u₀ := by simpa using hfound
      rw [hu]
    · exfalso
      have hlen := hU ufn
      rw [hf] at hlen
      simp at hlen
  · rw [if_neg hfs] at hfound
    rw [if_neg hfs, find?_eq_filter_head] at *
    rcases hf : db.users.filter (fun u => pyLower u.email == pyLower ufn) with
      _ | ⟨u, _ | ⟨v, r2⟩⟩
    · rw [hf] at hfound; simp at hfound
    · rw [hf] at hfound
      rw [hf]
      have hu : u = u₀ := by simpa using hfound
      rw [hu]
    · exfalso
      have hlen := hE ufn
      rw [hf] at hlen
      simp at hlen

theorem titleScan_eq (nu ng : Bool) (u : Option UserRec) (gfn : Option String)
    (acc : Nat → Bool) (l : List ExpPSet) :
    titleScan nu ng u gfn acc l =
      firstHit (l.find?
        (fun ps => titleMatchCond nu ng u gfn ps && acc ps.experimentId)) := by
  induction l with
  | nil => rfl
  | cons ps rest ih =>
    by_cases hc : titleMatchCond nu ng u gfn ps = true
    · by_cases ha : acc ps.experimentId = true
      · have hp : ((fun q => titleMatchCond nu ng u gfn q && acc q.experimentId) ps) = true := by
          simp [hc, ha]
        rw [@List.find?_cons_of_pos ExpPSet
          (fun q => titleMatchCond nu ng u gfn q && acc q.experimentId) ps rest hp]
        simp [titleScan, hc, ha, firstHit]
      · have hp : ¬(((fun q => titleMatchCond nu ng u gfn q && acc q.experimentId) ps) = true) := by
          simp [hc, ha]
        rw [@List.find?_cons_of_neg ExpPSet
          (fun q => titleMatchCond nu ng u gfn q && acc q.experimentId) ps rest hp]
        simp [titleScan, hc, ha, ih]
    · have hp : ¬(((fun q => titleMatchCond nu ng u gfn q && acc q.experimentId) ps) = true) := by
        simp [hc]
      rw [@List.find?_cons_of_neg ExpPSet
        (fun q => titleMatchCond nu ng u gfn q && acc q.experimentId) ps rest hp]
      simp [titleScan, hc, ih]

theorem titleCond_spec_true (ng : Bool) (u : UserRec) (gfnOpt : Option String)
    (ps : ExpPSet) :
    titleMatchCond true ng (some u) gfnOpt ps
      = specTitleMatch true ng u gfnOpt ps := by
  cases ng <;> simp [titleMatchCond, specTitleMatch, userCIMatch]

theorem titleCond_spec_false (ng : Bool) (u : UserRec) (gfnOpt : Option String)
    (ps : ExpPSet) :
    titleMatchCond false ng none gfnOpt ps
      = specTitleMatch false ng u gfnOpt ps := by
  cases ng <;> simp [titleMatchCond, specTitleMatch, userCIMatch]

theorem titleBranch_eq (g : GetParams) (db : Db) (acc : Nat → Bool) (t : String)
    (ht : g.title = some t)
    (hu : needUser (effectiveFS g) = true → g.user_folder_name.isSome = true)
    (hg : needGroup (effectiveFS g) = true → g.group_folder_name.isSome = true)
    (hU : ∀ s, (db.users.filter (fun u => u.username == s)).length ≤ 1)
    (hE : ∀ s,
      (db.users.filter (fun u => pyLower u.email == pyLower s)).length ≤ 1) :
    titleBranch g db acc = Except.ok (specTitleExpected g db acc t) := by
  cases hnu : needUser (effectiveFS g) with
  | true =>
    obtain ⟨ufn, hufn⟩ : ∃ v, g.user_folder_name = some v := by
      have h1 := hu hnu
      cases hv : g.user_folder_name with
      | none => rw [hv] at h1; simp at h1
      | some v => exact ⟨v, rfl⟩
    cases hng : needGroup (effectiveFS g) with
    | true =>
      obtain ⟨gfn, hgfn⟩ : ∃ v, g.group_folder_name = some v := by
        have h1 := hg hng
        cases hv : g.group_folder_name with
        | none => rw [hv] at h1; simp at h1
        | some v => exact ⟨v, rfl⟩
      simp only [titleBranch, ht, getReq, hnu, hng, hufn, hgfn, if_true,
        resolveUserTitle_eq db _ _ hU hE, Except.map, titleScan_eq,
        specTitleExpected, Option.getD_some]
      rw [show (fun ps => titleMatchCond true true (some (userToMatch db (effectiveFS g) ufn)) (some gfn) ps && acc ps.experimentId) = (fun ps => specTitleMatch true true (userToMatch db (effectiveFS g) ufn) (some gfn) ps && acc ps.experimentId) from funext (fun ps => by rw [titleCond_spec_true])]
    | false =>
      simp only [titleBranch, ht, getReq, hnu, hng, hufn, if_true,
        Bool.false_eq_true, if_false,
        resolveUserTitle_eq db _ _ hU hE, Except.map, titleScan_eq,
        specTitleExpected, Option.getD_some]
      rw [show (fun ps => titleMatchCond true false (some (userToMatch db (effectiveFS g) ufn)) none ps && acc ps.experimentId) = (fun ps => specTitleMatch true false (userToMatch db (effectiveFS g) ufn) none ps && acc ps.experimentId) from funext (fun ps => by rw [titleCond_spec_true])]
  | false =>
    cases hng : needGroup (effectiveFS g) with
    | true =>
      obtain ⟨gfn, hgfn⟩ : ∃ v, g.group_folder_name = some v := by
        have h1 := hg hng
        cases hv : g.group_folder_name with
        | none => rw [hv] at h1; simp at h1
        | some v => exact ⟨v, rfl⟩
      simp only [titleBranch, ht, getReq, hnu, hng, hgfn, if_true,
        Bool.false_eq_true, if_false, Except.map, titleScan_eq,
        specTitleExpected]
      rw [show (fun ps => titleMatchCond false true none (some gfn) ps && acc ps.experimentId) = (fun ps => specTitleMatch false true (userToMatch db (effectiveFS g) (g.user_folder_name.getD "")) (some gfn) ps && acc ps.experimentId) from funext (fun ps => by rw [titleCond_spec_false])]
    | false =>
      simp only [titleBranch, ht, getReq, hnu, hng,
        Bool.false_eq_true, if_false, Except.map, titleScan_eq,
        specTitleExpected]
      rw [show (fun ps => titleMatchCond false false none none ps && acc ps.experimentId) = (fun ps => specTitleMatch false false (userToMatch db (effectiveFS g) (g.user_folder_name.getD "")) none ps && acc ps.experimentId) from funext (fun ps => by rw [titleCond_spec_false])]

/-- C1 (amended): for a title query whose GET parameters also supply the
folder-name key its folder structure requires, and whose user table is
well-formed (unique usernames, case-insensitively unique emails),
`obj_get_list` returns the first accessible matching default experiment as a
one-element list, or the empty list when no parameter set matches. -/
theorem c1_title_query_returns_first_match
    (g : GetParams) (db : Db) (acc : Nat → Bool) (t : String)
    (ht : g.title = some t)
    (hfn : g.user_folder_name.isSome = true ∨ g.group_folder_name.isSome = true)
    (hu : needUser (effectiveFS g) = true → g.user_folder_name.isSome = true)
    (hg : needGroup (effectiveFS g) = true → g.group_folder_name.isSome = true)
    (hU : ∀ s, (db.users.filter (fun u => u.username == s)).length ≤ 1)
    (hE : ∀ s,
      (db.users.filter (fun u => pyLower u.email == pyLower s)).length ≤ 1) :
    obj_get_list g db acc = Except.ok (some (specTitleExpected g db acc t)) := by
  have hcond : (g.title.isSome &&
      (g.user_folder_name.isSome || g.group_folder_name.isSome)) = true := by
    rcases hfn with h | h <;> simp [ht, h]
  simp only [obj_get_list, hcond, if_true,
    titleBranch_eq g db acc t ht hu hg hU hE, Except.map]

/-- Witness for C1: a concrete title query that returns experiment 7. -/
theorem c1_title_query_witness :
    obj_get_list c1wG c1wDb (fun _ => true) = Except.ok (some [7]) := by
  have h := c1_title_query_returns_first_match c1wG c1wDb (fun _ => true) "T"
    rfl (Or.inl rfl) (fun _ => rfl) (fun hx => absurd hx (by decide))
    (fun s => by simp [c1wDb]) (fun s => by simp [c1wDb])
  rw [h]
  rfl

/-- Counterexample to C1 as stated: a request with `title` and
`group_folder_name` but a `folder_structure` requiring a user match raises a
`KeyError` reading the absent `user_folder_name`, instead of returning the
empty list the claim promises. -/
theorem c1_missing_user_folder_key_errors :
    obj_get_list c1xG ⟨[], []⟩ (fun _ => false)
      = Except.error (PyErr.keyError "user_folder_name") := by rfl

theorem upParamScan_eq (uuid : String) (nu : Bool) (u : Option UserRec)
    (gfnOpt : Option String) (l : List ExpParam) (a b c : Bool)
    (h : gfnOpt = none → ∀ p ∈ l, p.pname ≠ "group_folder_name") :
    upParamScan uuid nu u gfnOpt l a b c =
      Except.ok
        (a || l.any (fun p => (p.pname == "uploader") && (p.string_value == uuid)),
         b || l.any (fun p => nu && ((p.pname == "user_folder_name") &&
           userCIMatch u p.string_value)),
         c || l.any (fun p => (p.pname == "group_folder_name") &&
           gfnMatch gfnOpt p.string_value)) := by
  induction l generalizing a b c with
  | nil => simp [upParamScan]
  | cons p rest ih =>
    have hrest : gfnOpt = none → ∀ q ∈ rest, q.pname ≠ "group_folder_name" :=
      fun hnone q hq => h hnone q (List.mem_cons_of_mem p hq)
    by_cases hg : (p.pname == "group_folder_name") = true
    · cases gfnOpt with
      | none =>
        exact absurd (by simpa using hg) (h rfl p (List.mem_cons_self p rest))
      | some gv =>
        simp only [upParamScan, hg, if_true]
        rw [ih _ _ _ hrest]
        simp [List.any_cons, Bool.or_assoc, Bool.and_assoc, hg, gfnMatch]
    · simp only [upParamScan, hg, Bool.false_eq_true, if_false]
      rw [ih _ _ _ hrest]
      simp [List.any_cons, Bool.or_assoc, Bool.and_assoc, hg]

theorem upScan_eq (uuid : String) (nu ng : Bool) (u : Option UserRec)
    (gfnOpt : Option String) (acc : Nat → Bool) (l : List ExpPSet)
    (h : gfnOpt = none → ∀ ps ∈ l, ∀ p ∈ ps.params, p.pname ≠ "group_folder_name") :
    upScan uuid nu ng u gfnOpt acc l =
      Except.ok (firstHit (l.find? (fun ps =>
        (ps.params.any (fun p => (p.pname == "uploader") && (p.string_value == uuid))
          && ((nu && ps.params.any (fun p => nu && ((p.pname == "user_folder_name") &&
                userCIMatch u p.string_value)))
              || (ng && ps.params.any (fun p => (p.pname == "group_folder_name") &&
                gfnMatch gfnOpt p.string_value))))
        && acc ps.experimentId))) := by
  induction l with
  | nil => simp [upScan, firstHit]
  | cons ps rest ih =>
    have hps : gfnOpt = none → ∀ p ∈ ps.params, p.pname ≠ "group_folder_name" :=
      fun hnone => h hnone ps (List.mem_cons_self ps rest)
    have hrest : gfnOpt = none →
        ∀ q ∈ rest, ∀ p ∈ q.params, p.pname ≠ "group_folder_name" :=
      fun hnone q hq => h hnone q (List.mem_cons_of_mem ps hq)
    simp only [upScan]
    rw [upParamScan_eq uuid nu u gfnOpt ps.params false false false hps]
    simp only [Bool.false_or]
    by_cases hc : (ps.params.any (fun p => (p.pname == "uploader") && (p.string_value == uuid))
        && ((nu && ps.params.any (fun p => nu && ((p.pname == "user_folder_name") &&
              userCIMatch u p.string_value)))
            || (ng && ps.params.any (fun p => (p.pname == "group_folder_name") &&
              gfnMatch gfnOpt p.string_value)))) = true
    · by_cases ha : acc ps.experimentId = true
      · have hp : ((fun q => (q.params.any (fun p => (p.pname == "uploader") && (p.string_value == uuid))
            && ((nu && q.params.any (fun p => nu && ((p.pname == "user_folder_name") &&
                  userCIMatch u p.string_value)))
                || (ng && q.params.any (fun p => (p.pname == "group_folder_name") &&
                  gfnMatch gfnOpt p.string_value))))
            && acc q.experimentId) ps) = true := by
          simp only []
          rw [hc, ha]
          rfl
        rw [List.find?_cons_of_pos rest hp]
        simp [hc, ha, firstHit]
      · have hp : ¬(((fun q => (q.params.any (fun p => (p.pname == "uploader") && (p.string_value == uuid))
            && ((nu && q.params.any (fun p => nu && ((p.pname == "user_folder_name") &&
                  userCIMatch u p.string_value)))
                || (ng && q.params.any (fun p => (p.pname == "group_folder_name") &&
                  gfnMatch gfnOpt p.string_value))))
            && acc q.experimentId) ps) = true) := by
          simp only []
          rw [Bool.not_eq_true] at ha
          rw [hc, ha]
          simp
        rw [List.find?_cons_of_neg rest hp]
        rw [ih hrest]
        simp [hc, ha]
    · have hp : ¬(((fun q => (q.params.any (fun p => (p.pname == "uploader") && (p.string_value == uuid))
          && ((nu && q.params.any (fun p => nu && ((p.pname == "user_folder_name") &&
                userCIMatch u p.string_value)))
              || (ng && q.params.any (fun p => (p.pname == "group_folder_name") &&
                gfnMatch gfnOpt p.string_value))))
          && acc q.experimentId) ps) = true) := by
        simp only []
        rw [Bool.not_eq_true] at hc
        rw [hc]
        simp
      rw [List.find?_cons_of_neg rest hp]
      rw [ih hrest]
      simp [hc]

theorem upCond_spec_true (uuid : String) (ng : Bool) (u₀ : UserRec)
    (gfnOpt : Option String) (ps : ExpPSet) :
    (ps.params.any (fun p => (p.pname == "uploader") && (p.string_value == uuid))
      && ((true && ps.params.any (fun p => true && ((p.pname == "user_folder_name") &&
            userCIMatch (some u₀) p.string_value)))
          || (ng && ps.params.any (fun p => (p.pname == "group_folder_name") &&
            gfnMatch gfnOpt p.string_value))))
      = specUpMatch uuid true ng u₀ gfnOpt ps := by
  simp [specUpMatch, userCIMatch]

theorem upCond_spec_false (uuid : String) (ng : Bool) (u : UserRec)
    (gfnOpt : Option String) (ps : ExpPSet) :
    (ps.params.any (fun p => (p.pname == "uploader") && (p.string_value == uuid))
      && ((false && ps.params.any (fun p => false && ((p.pname == "user_folder_name") &&
            userCIMatch none p.string_value)))
          || (ng && ps.params.any (fun p => (p.pname == "group_folder_name") &&
            gfnMatch gfnOpt p.string_value))))
      = specUpMatch uuid false ng u gfnOpt ps := by
  simp [specUpMatch, userCIMatch]

theorem uploaderBranch_eq (g : GetParams) (db : Db) (acc : Nat → Bool)
    (uuid : String)
    (hup : g.uploader = some uuid)
    (hu : needUser (effectiveFS g) = true → g.user_folder_name.isSome = true)
    (hg : needGroup (effectiveFS g) = true → g.group_folder_name.isSome = true)
    (hex : needUser (effectiveFS g) = true →
      (userLookup db (effectiveFS g) (g.user_folder_name.getD "")).isSome = true)
    (hU : ∀ s, (db.users.filter (fun u => u.username == s)).length ≤ 1)
    (hE : ∀ s,
      (db.users.filter (fun u => pyLower u.email == pyLower s)).length ≤ 1)
    (hnog : needGroup (effectiveFS g) = false →
      ∀ ps ∈ db.psets, ∀ p ∈ ps.params, p.pname ≠ "group_folder_name") :
    uploaderBranch g db acc = Except.ok (specUploaderExpected g db acc uuid) := by
  cases hnu : needUser (effectiveFS g) with
  | true =>
    obtain ⟨ufn, hufn⟩ : ∃ v, g.user_folder_name = some v := by
      have h1 := hu hnu
      cases hv : g.user_folder_name with
      | none => rw [hv] at h1; simp at h1
      | some v => exact ⟨v, rfl⟩
    obtain ⟨u₀, hfound⟩ : ∃ w, userLookup db (effectiveFS g) ufn = some w := by
      have h1 := hex hnu
      rw [hufn] at h1
      simp only [Option.getD_some] at h1
      cases hv : userLookup db (effectiveFS g) ufn with
      | none => rw [hv] at h1; simp at h1
      | some w => exact ⟨w, rfl⟩
    cases hng : needGroup (effectiveFS g) with
    | true =>
      obtain ⟨gfn, hgfn⟩ : ∃ v, g.group_folder_name = some v := by
        have h1 := hg hng
        cases hv : g.group_folder_name with
        | none => rw [hv] at h1; simp at h1
        | some v => exact ⟨v, rfl⟩
      simp only [uploaderBranch, hup, getReq, hnu, hng, hufn, hgfn, if_true,
        resolveUserUploader_eq db _ _ u₀ hU hE hfound, Except.map]
      rw [upScan_eq uuid true true (some u₀) (some gfn) acc db.psets
        (fun hnone => absurd hnone (Option.some_ne_none gfn))]
      simp only [specUploaderExpected, hnu, hng, hufn, hgfn, if_true,
        Option.getD_some, hfound]
      rw [show (fun ps => (ps.params.any (fun p => (p.pname == "uploader") && (p.string_value == uuid)) && ((true && ps.params.any (fun p => true && ((p.pname == "user_folder_name") && userCIMatch (some u₀) p.string_value))) || (true && ps.params.any (fun p => (p.pname == "group_folder_name") && gfnMatch (some gfn) p.string_value)))) && acc ps.experimentId) = (fun ps => specUpMatch uuid true true u₀ (some gfn) ps && acc ps.experimentId) from funext (fun ps => by rw [upCond_spec_true])]
    | false =>
      simp only [uploaderBranch, hup, getReq, hnu, hng, hufn, if_true,
        Bool.false_eq_true, if_false,
        resolveUserUploader_eq db _ _ u₀ hU hE hfound, Except.map]
      rw [upScan_eq uuid true false (some u₀) none acc db.psets
        (fun _ => hnog hng)]
      simp only [specUploaderExpected, hnu, hng, hufn, Bool.false_eq_true,
        if_false, Option.getD_some, hfound]
      rw [show (fun ps => (ps.params.any (fun p => (p.pname == "uploader") && (p.string_value == uuid)) && ((true && ps.params.any (fun p => true && ((p.pname == "user_folder_name") && userCIMatch (some u₀) p.string_value))) || (false && ps.params.any (fun p => (p.pname == "group_folder_name") && gfnMatch none p.string_value)))) && acc ps.experimentId) = (fun ps => specUpMatch uuid true false u₀ none ps && acc ps.experimentId) from funext (fun ps => by rw [upCond_spec_true])]
  | false =>
    cases hng : needGroup (effectiveFS g) with
    | true =>
      obtain ⟨gfn, hgfn⟩ : ∃ v, g.group_folder_name = some v := by
        have h1 := hg hng
        cases hv : g.group_folder_name with
        | none => rw [hv] at h1; simp at h1
        | some v => exact ⟨v, rfl⟩
      simp only [uploaderBranch, hup, getReq, hnu, hng, hgfn, if_true,
        Bool.false_eq_true, if_false, Except.map]
      rw [upScan_eq uuid false true none (some gfn) acc db.psets
        (fun hnone => absurd hnone (Option.some_ne_none gfn))]
      simp only [specUploaderExpected, hnu, hng, hgfn, if_true,
        Bool.false_eq_true, if_false]
      rw [show (fun ps => (ps.params.any (fun p => (p.pname == "uploader") && (p.string_value == uuid)) && ((false && ps.params.any (fun p => false && ((p.pname == "user_folder_name") && userCIMatch none p.string_value))) || (true && ps.params.any (fun p => (p.pname == "group_folder_name") && gfnMatch (some gfn) p.string_value)))) && acc ps.experimentId) = (fun ps => specUpMatch uuid false true ((userLookup db (effectiveFS g) (g.user_folder_name.getD "")).getD ⟨"", ""⟩) (some gfn) ps && acc ps.experimentId) from funext (fun ps => by rw [upCond_spec_false])]
    | false =>
      simp only [uploaderBranch, hup, getReq, hnu, hng, Bool.false_eq_true,
        if_false, Except.map]
      rw [upScan_eq uuid false false none none acc db.psets
        (fun _ => hnog hng)]
      simp only [specUploaderExpected, hnu, hng, Bool.false_eq_true, if_false]
      rw [show (fun ps => (ps.params.any (fun p => (p.pname == "uploader") && (p.string_value == uuid)) && ((false && ps.params.any (fun p => false && ((p.pname == "user_folder_name") && userCIMatch none p.string_value))) || (false && ps.params.any (fun p => (p.pname == "group_folder_name") && gfnMatch none p.string_value)))) && acc ps.experimentId) = (fun ps => specUpMatch uuid false false ((userLookup db (effectiveFS g) (g.user_folder_name.getD "")).getD ⟨"", ""⟩) none ps && acc ps.experimentId) from funext (fun ps => by rw [upCond_spec_false])]

theorem filter_singleton_len {α : Type} (p : α → Bool) (a : α) :
    (List.filter p [a]).length ≤ 1 := by
  by_cases h : p a = true <;> simp [List.filter_cons, h]

/-- C2 (amended): for an uploader-UUID query (no title) whose GET parameters
supply the folder-name key the folder structure requires, whose user folder
name matches an existing account whenever a user match is required, whose
user table is well-formed, and whose parameter rows contain no
`group_folder_name` row when no group match is required, `obj_get_list`
returns an experiment exactly when a single parameter set contains both the
uploader UUID and the required folder-name match: it returns the first such
accessible experiment, else the empty list. -/
theorem c2_uploader_query_returns_first_match
    (g : GetParams) (db : Db) (acc : Nat → Bool) (uuid : String)
    (ht : g.title = none)
    (hup : g.uploader = some uuid)
    (hfn : g.user_folder_name.isSome = true ∨ g.group_folder_name.isSome = true)
    (hu : needUser (effectiveFS g) = true → g.user_folder_name.isSome = true)
    (hg : needGroup (effectiveFS g) = true → g.group_folder_name.isSome = true)
    (hex : needUser (effectiveFS g) = true →
      (userLookup db (effectiveFS g) (g.user_folder_name.getD "")).isSome = true)
    (hU : ∀ s, (db.users.filter (fun u => u.username == s)).length ≤ 1)
    (hE : ∀ s,
      (db.users.filter (fun u => pyLower u.email == pyLower s)).length ≤ 1)
    (hnog : needGroup (effectiveFS g) = false →
      ∀ ps ∈ db.psets, ∀ p ∈ ps.params, p.pname ≠ "group_folder_name") :
    obj_get_list g db acc
      = Except.ok (some (specUploaderExpected g db acc uuid)) := by
  have hcond1 : (g.title.isSome &&
      (g.user_folder_name.isSome || g.group_folder_name.isSome)) = false := by
    simp [ht]
  have hcond2 : (g.uploader.isSome &&
      (g.user_folder_name.isSome || g.group_folder_name.isSome)) = true := by
    rcases hfn with h | h <;> simp [hup, h]
  simp only [obj_get_list, hcond1, Bool.false_eq_true, if_false, hcond2,
    if_true, uploaderBranch_eq g db acc uuid hup hu hg hex hU hE hnog,
    Except.map]

/-- Witness for C2: a concrete uploader query that returns experiment 9. -/
theorem c2_uploader_query_witness :
    obj_get_list c2wG c2wDb (fun _ => true) = Except.ok (some [9]) := by
  have h := c2_uploader_query_returns_first_match c2wG c2wDb (fun _ => true)
    "U1" rfl rfl (Or.inl rfl) (fun _ => rfl)
    (fun hx => absurd hx (by decide)) (fun _ => rfl)
    (fun s => filter_singleton_len _ _) (fun s => filter_singleton_len _ _)
    (fun _ => by decide)
  rw [h]
  rfl

/-- Counterexample to C2 as stated: an uploader query whose user folder name
matches no account raises `UnboundLocalError` on the `UnknownUser` fallback
instead of returning the empty list the claim promises. -/
theorem c2_unknown_user_lookup_errors :
    obj_get_list c2xG ⟨[], []⟩ (fun _ => false)
      = Except.error (PyErr.unboundLocal "UnknownUser") := by rfl

/-- C10: in the uploader branch the `UnknownUser` fallback is NOT in scope
(the class statement lives inside the title branch, which always returns), so
a user folder name matching no account raises `UnboundLocalError` instead of
completing with the placeholder: the claim is right about the intent and the
code is a scoping slip. -/
theorem c10_unknown_user_unbound_local :
    obj_get_list c10G ⟨[], []⟩ (fun _ => true)
      = Except.error (PyErr.unboundLocal "UnknownUser") := by rfl

/-- C3: during data-file creation, an `IntegrityError` whose message contains
"duplicate key" becomes an HTTP 409 conflict; an `IntegrityError` without that
substring is re-raised unchanged; any other error propagates unchanged. -/
theorem c3_duplicate_key_maps_to_409 (msg : String) :
    (hasSubstr "duplicate key".toList msg.toList = true →
      df_obj_create (CreationOutcome.integrityErr msg) = CreationResult.http409)
    ∧ (hasSubstr "duplicate key".toList msg.toList = false →
      df_obj_create (CreationOutcome.integrityErr msg)
        = CreationResult.integrityErr msg)
    ∧ (∀ m, df_obj_create (CreationOutcome.otherErr m)
        = CreationResult.otherErr m)
    ∧ (∀ i, df_obj_create (CreationOutcome.created i)
        = CreationResult.created i) := by
  refine ⟨fun h => ?_, fun h => ?_, fun m => rfl, fun i => rfl⟩
  · simp only [df_obj_create]
    rw [if_pos h]
  · have h' : ¬(hasSubstr "duplicate key".toList msg.toList = true) := by
      rw [h]
      exact Bool.false_ne_true
    simp only [df_obj_create]
    rw [if_neg h']

/-- Witness for C3: a duplicate-key integrity error becomes HTTP 409, another
integrity error is re-raised unchanged. -/
theorem c3_duplicate_key_witness :
    df_obj_create (CreationOutcome.integrityErr
        "ERROR: duplicate key value violates unique constraint")
      = CreationResult.http409
    ∧ df_obj_create (CreationOutcome.integrityErr "null value in column")
      = CreationResult.integrityErr "null value in column" :=
  ⟨(c3_duplicate_key_maps_to_409
      "ERROR: duplicate key value violates unique constraint").1 (by decide),
   (c3_duplicate_key_maps_to_409 "null value in column").2.1 (by decide)⟩

/-- C4: the claim (and the `Uploader` model's own docstring, models/uploader.py
lines 27-32) says an Uploader can be created unauthenticated, but
`ACLAuthorization.create_detail` returns `is_facility_manager`, which is
`False` for an unauthenticated requester — even when the superclass would
have allowed it. -/
theorem c4_create_detail_denies_unauthenticated :
    create_detail ⟨false, 0⟩ ApiObj.uploaderObj true = false := rfl

/-- C7: `obj_create` stamps `created_time` and `updated_time` with the current
time and `wan_ip_address` exactly when an IP is determinable; `obj_update`
(first pass) stamps `updated_time` and, when determinable, `wan_ip_address`;
`UploaderRegistrationRequestAppResource.hydrate` stamps `request_time`. -/
theorem c7_crud_hooks_stamp (n1 n2 n3 n4 : Nat) (ip : Option String)
    (d : CrudData) (rd : RegReqData) :
    ((uploader_obj_create_stamp n1 n2 ip d).created_time = some n1
      ∧ (uploader_obj_create_stamp n1 n2 ip d).updated_time = some n2)
    ∧ (∀ i, ip = some i →
        (uploader_obj_create_stamp n1 n2 ip d).wan_ip_address = some i)
    ∧ (ip = none →
        (uploader_obj_create_stamp n1 n2 ip d).wan_ip_address
          = d.wan_ip_address)
    ∧ (∀ d', uploader_obj_update_stamp n3 ip d false = some d' →
        d'.updated_time = some n3
        ∧ (∀ i, ip = some i → d'.wan_ip_address = some i)
        ∧ (ip = none → d'.wan_ip_address = d.wan_ip_address))
    ∧ (reg_request_hydrate n4 rd).request_time = some n4 := by
  cases ip with
  | none =>
    refine ⟨⟨rfl, rfl⟩, fun i h => Option.noConfusion h, fun _ => rfl,
      fun d' hd' => ?_, rfl⟩
    have hd : d' = ⟨d.created_time, some n3, d.wan_ip_address⟩ := by
      simp only [uploader_obj_update_stamp, Bool.false_eq_true, if_false] at hd'
      exact (Option.some.inj hd').symm
    rw [hd]
    exact ⟨rfl, fun i h => Option.noConfusion h, fun _ => rfl⟩
  | some i0 =>
    refine ⟨⟨rfl, rfl⟩, fun i h => ?_, fun h => Option.noConfusion h,
      fun d' hd' => ?_, rfl⟩
    · rw [(Option.some.inj h)]
      rfl
    · have hd : d' = ⟨d.created_time, some n3, some i0⟩ := by
        simp only [uploader_obj_update_stamp, Bool.false_eq_true, if_false] at hd'
        exact (Option.some.inj hd').symm
      rw [hd]
      exact ⟨rfl, fun i h => by rw [(Option.some.inj h)], fun h => Option.noConfusion h⟩

/-- Witness for C7: concrete stamps with and without a determinable IP. -/
theorem c7_crud_hooks_witness :
    (uploader_obj_create_stamp 1 2 (some "1.2.3.4") ⟨none, none, none⟩).created_time = some 1
    ∧ (uploader_obj_create_stamp 1 2 (some "1.2.3.4") ⟨none, none, none⟩).wan_ip_address = some "1.2.3.4"
    ∧ (uploader_obj_create_stamp 1 2 none ⟨none, none, some "old"⟩).wan_ip_address = some "old"
    ∧ (reg_request_hydrate 4 ⟨none, []⟩).request_time = some 4 := by
  have h1 := c7_crud_hooks_stamp 1 2 3 4 (some "1.2.3.4")
    (⟨none, none, none⟩ : CrudData) (⟨none, []⟩ : RegReqData)
  have h2 := c7_crud_hooks_stamp 1 2 3 4 none
    (⟨none, none, some "old"⟩ : CrudData) (⟨none, []⟩ : RegReqData)
  exact ⟨h1.1.1, h1.2.1 "1.2.3.4" rfl, h2.2.2.1 rfl, h2.2.2.2.2⟩

/-- C9: `dehydrate` keeps only whitelisted keys, and two uploader records that
agree on the whitelisted fields but differ arbitrarily elsewhere produce
identical API responses — non-whitelisted fields never flow out. -/
theorem c9_dehydrate_whitelist (u1 u2 : UploaderRecord)
    (h1 : u1.id = u2.id) (h2 : u1.resource_uri = u2.resource_uri)
    (h3 : u1.name = u2.name) (h4 : u1.settings = u2.settings)
    (h5 : u1.settings_updated = u2.settings_updated)
    (h6 : u1.settings_downloaded = u2.settings_downloaded) :
    (∀ (d : List (String × FieldVal)), ∀ kv ∈ dehydrate d,
      kv.1 ∈ accessible_keys)
    ∧ dehydrate (full_dehydrate u1) = dehydrate (full_dehydrate u2) := by
  constructor
  · intro d kv hkv
    have h := List.mem_filter.mp hkv
    simpa using h.2
  · have e1 : dehydrate (full_dehydrate u1) =
        [("id", FieldVal.vn u1.id),
         ("resource_uri", FieldVal.vs u1.resource_uri),
         ("name", FieldVal.vs u1.name),
         ("settings", FieldVal.vsettings u1.settings),
         ("settings_updated", FieldVal.vos u1.settings_updated),
         ("settings_downloaded", FieldVal.vos u1.settings_downloaded)] := rfl
    have e2 : dehydrate (full_dehydrate u2) =
        [("id", FieldVal.vn u2.id),
         ("resource_uri", FieldVal.vs u2.resource_uri),
         ("name", FieldVal.vs u2.name),
         ("settings", FieldVal.vsettings u2.settings),
         ("settings_updated", FieldVal.vos u2.settings_updated),
         ("settings_downloaded", FieldVal.vos u2.settings_downloaded)] := rfl
    rw [e1, e2, h1, h2, h3, h4, h5, h6]

/-- Witness for C9: two concrete uploader records differing in MAC address,
OS, network and contact fields dehydrate identically. -/
theorem c9_dehydrate_witness :
    dehydrate (full_dehydrate c9u1) = dehydrate (full_dehydrate c9u2) :=
  (c9_dehydrate_whitelist c9u1 c9u2 rfl rfl rfl rfl rfl rfl).2

theorem overwriteKeepUploader (uid : Nat) (k v : String) (r : SettingRow) :
    ((if r.uploaderId == uid && r.key == k
      then (⟨r.uploaderId, r.key, v⟩ : SettingRow) else r)).uploaderId
      = r.uploaderId := by
  split <;> rfl

theorem overwriteKeepKey (uid : Nat) (k v : String) (r : SettingRow) :
    ((if r.uploaderId == uid && r.key == k
      then (⟨r.uploaderId, r.key, v⟩ : SettingRow) else r)).key = r.key := by
  split <;> rfl

theorem upsertOne_eq (tbl : List SettingRow) (uid : Nat) (k v : String)
    (h : settingsUnique tbl) :
    upsertOne tbl uid k v = Except.ok (specUpsert tbl uid k v) := by
  have hlen : (tbl.filter (fun r => r.uploaderId == uid && r.key == k)).length ≤ 1 := by
    apply filter_len_le_one _ tbl h
    intro a b ha hb hr
    rw [Bool.and_eq_true] at ha hb
    exact hr ⟨by rw [eq_of_beq ha.1, eq_of_beq hb.1],
      by rw [eq_of_beq ha.2, eq_of_beq hb.2]⟩
  unfold upsertOne specUpsert
  rcases hf : tbl.filter (fun r => r.uploaderId == uid && r.key == k) with
    _ | ⟨x, _ | ⟨y, r2⟩⟩
  · have hany : tbl.any (fun r => r.uploaderId == uid && r.key == k) = false := by
      rcases han : tbl.any (fun r => r.uploaderId == uid && r.key == k) with _ | _
      · rfl
      · obtain ⟨x, hx, hpx⟩ := List.any_eq_true.mp han
        have hxf : x ∈ tbl.filter (fun r => r.uploaderId == uid && r.key == k) :=
          List.mem_filter.mpr ⟨hx, hpx⟩
        rw [hf] at hxf
        exact absurd hxf (List.not_mem_nil x)
    rw [hf, if_neg (by rw [hany]; exact Bool.false_ne_true)]
  · have hxf : x ∈ tbl.filter (fun r => r.uploaderId == uid && r.key == k) := by
      rw [hf]
      exact List.mem_cons_self x []
    have hany : tbl.any (fun r => r.uploaderId == uid && r.key == k) = true :=
      List.any_eq_true.mpr ⟨x, (List.mem_filter.mp hxf).1, (List.mem_filter.mp hxf).2⟩
    rw [hf, if_pos hany]
  · exfalso
    rw [hf] at hlen
    simp at hlen

theorem specUpsert_unique (tbl : List SettingRow) (uid : Nat) (k v : String)
    (h : settingsUnique tbl) : settingsUnique (specUpsert tbl uid k v) := by
  unfold specUpsert
  by_cases hany : (tbl.any (fun r => r.uploaderId == uid && r.key == k)) = true
  · rw [if_pos hany]
    rw [settingsUnique, List.pairwise_map]
    refine List.Pairwise.imp ?_ h
    intro a b hab hcon
    apply hab
    constructor
    · have hc := hcon.1
      rwa [overwriteKeepUploader, overwriteKeepUploader] at hc
    · have hc := hcon.2
      rwa [overwriteKeepKey, overwriteKeepKey] at hc
  · rw [if_neg hany]
    rw [settingsUnique, List.pairwise_append]
    refine ⟨h, List.pairwise_singleton _ _, ?_⟩
    intro x hx y hy
    rw [List.mem_singleton.mp hy]
    intro hcon
    apply hany
    exact List.any_eq_true.mpr ⟨x, hx, by simp [hcon.1, hcon.2]⟩

theorem upsertAll_ok (uid : Nat) (entries : List (String × String))
    (tbl : List SettingRow) (h : settingsUnique tbl) :
    upsertAll uid entries tbl
      = Except.ok (entries.foldl (fun t kv => specUpsert t uid kv.1 kv.2) tbl)
    ∧ settingsUnique
        (entries.foldl (fun t kv => specUpsert t uid kv.1 kv.2) tbl) := by
  induction entries generalizing tbl with
  | nil => exact ⟨rfl, h⟩
  | cons kv rest ih =>
    have h1 := upsertOne_eq tbl uid kv.1 kv.2 h
    have h2 := specUpsert_unique tbl uid kv.1 kv.2 h
    have ihh := ih (specUpsert tbl uid kv.1 kv.2) h2
    constructor
    · simp only [upsertAll, h1]
      simpa [List.foldl_cons] using ihh.1
    · simpa [List.foldl_cons] using ihh.2

/-- C6: when updating an existing uploader whose payload has a `settings`
list, each (key, value) entry is upserted (overwrite the existing
(uploader, key) row, else create one), the `settings` entry is removed from
the payload handed to the superclass hydration, `settings_updated` is stamped
with the current time, and no duplicate (uploader, key) row is ever
created. -/
theorem c6_settings_upsert_correct (now : Nat) (tbl : List SettingRow)
    (uid : Nat) (obj : UploaderObj) (d : UpBundleData)
    (entries : List (String × String))
    (hid : obj.id = some uid) (hz : uid ≠ 0)
    (hs : d.settings = some entries)
    (hinv : settingsUnique tbl) :
    hydrate_m2m now tbl obj d
      = Except.ok (entries.foldl (fun t kv => specUpsert t uid kv.1 kv.2) tbl,
          ⟨obj.id, some now⟩, ⟨none, d.rest⟩)
    ∧ settingsUnique
        (entries.foldl (fun t kv => specUpsert t uid kv.1 kv.2) tbl) := by
  have hall := upsertAll_ok uid entries tbl hinv
  refine ⟨?_, hall.2⟩
  have hidt : idTruthy (some uid) = true := by simp [idTruthy, hz]
  simp only [hydrate_m2m, hid, hs, hidt, hall.1]

/-- Witness for C6: one fresh entry and one overwrite on a concrete table. -/
theorem c6_settings_upsert_witness :
    hydrate_m2m 5 [⟨1, "a", "old"⟩] ⟨some 1, none⟩
        ⟨some [("a", "new"), ("b", "x")], [("name", "n")]⟩
      = Except.ok ([⟨1, "a", "new"⟩, ⟨1, "b", "x"⟩], ⟨some 1, some 5⟩,
          ⟨none, [("name", "n")]⟩)
    ∧ settingsUnique [⟨1, "a", "new"⟩, ⟨1, "b", "x"⟩] := by
  have h := c6_settings_upsert_correct 5 [⟨1, "a", "old"⟩] 1 ⟨some 1, none⟩
    ⟨some [("a", "new"), ("b", "x")], [("name", "n")]⟩ [("a", "new"), ("b", "x")]
    rfl (by decide) rfl (by simp [settingsUnique])
  refine ⟨?_, ?_⟩
  · rw [h.1]
    rfl
  · have h2 := h.2
    simpa using h2

/-- C5: any insert or update of the registration-request table that the
(database-enforced) `unique_together` constraint lets through preserves the
at-most-one-record-per-(uploader, fingerprint) invariant. -/
theorem c5_registration_request_uniqueness_preserved
    (tbl : List RegRow) (op : RegOp) (tbl' : List RegRow)
    (h1 : regUnique tbl) (h2 : idUnique tbl)
    (hok : applyRegOp tbl op = Except.ok tbl') :
    regUnique tbl' := by
  cases op with
  | insertRow r =>
    simp only [applyRegOp] at hok
    by_cases hany : (tbl.any (fun x => x.uploaderId == r.uploaderId &&
        x.fingerprint == r.fingerprint)) = true
    · rw [if_pos hany] at hok
      exact Except.noConfusion hok
    · rw [if_neg hany] at hok
      have htbl : tbl' = tbl ++ [r] := (Except.ok.inj hok).symm
      subst htbl
      rw [regUnique, List.pairwise_append]
      refine ⟨h1, List.pairwise_singleton _ _, ?_⟩
      intro x hx y hy
      rw [List.mem_singleton.mp hy]
      intro hcon
      exact hany (List.any_eq_true.mpr ⟨x, hx, by simp [hcon.1, hcon.2]⟩)
  | updateRow i r =>
    simp only [applyRegOp] at hok
    by_cases hany : (tbl.any (fun x => x.rid != i && x.uploaderId == r.uploaderId &&
        x.fingerprint == r.fingerprint)) = true
    · rw [if_pos hany] at hok
      exact Except.noConfusion hok
    · rw [if_neg hany] at hok
      have htbl : tbl' = tbl.map (fun x => if x.rid == i then r else x) :=
        (Except.ok.inj hok).symm
      subst htbl
      have hnc : ∀ x ∈ tbl, x.rid ≠ i →
          ¬(x.uploaderId = r.uploaderId ∧ x.fingerprint = r.fingerprint) := by
        intro x hx hne hcon
        exact hany (List.any_eq_true.mpr
          ⟨x, hx, by simp [hne, hcon.1, hcon.2]⟩)
      rw [regUnique, List.pairwise_map]
      refine List.Pairwise.imp_of_mem ?_ (h1.and h2)
      intro a b ha hb hab
      by_cases hai : (a.rid == i) = true <;> by_cases hbi : (b.rid == i) = true
      · exact absurd (by rw [eq_of_beq hai, eq_of_beq hbi]) hab.2
      · rw [if_pos hai, if_neg hbi]
        intro hcon
        exact hnc b hb (fun hbe => hbi (by rw [hbe]; exact beq_self_eq_true i))
          ⟨hcon.1.symm, hcon.2.symm⟩
      · rw [if_neg hai, if_pos hbi]
        intro hcon
        exact hnc a ha (fun hae => hai (by rw [hae]; exact beq_self_eq_true i))
          ⟨hcon.1, hcon.2⟩
      · rw [if_neg hai, if_neg hbi]
        exact hab.1

/-- Witness for C5: inserting into an empty table, then updating the row,
both preserve uniqueness. -/
theorem c5_registration_request_witness :
    regUnique [(⟨1, 1, "fp-1", "x"⟩ : RegRow)] := by
  exact c5_registration_request_uniqueness_preserved [] (RegOp.insertRow ⟨1, 1, "fp-1", "x"⟩)
    [⟨1, 1, "fp-1", "x"⟩] (by simp [regUnique]) (by simp [idUnique]) rfl

/-- Counterexample to C8 as stated: the REST API does not expose
`mac_address` as a query/identification field at all — `Meta.filtering`
lists only `uuid` and `name`. -/
theorem c8_mac_not_api_identifier :
    "mac_address" ∉ uploaderFilteringFields := by decide

/-- C8 (amended): no two Uploader rows share a MAC address (database unique
constraint, preserved by inserts the constraint lets through), but the REST
API identifies the uploader record by UUID, not MAC: filtering exposes
`uuid` (and `name`) and not `mac_address`, and an update is authorized only
when the payload UUID equals the target record's UUID. -/
theorem c8_mac_unique_and_uuid_identity
    (tbl : List UploaderRow) (r : UploaderRow) (tbl' : List UploaderRow)
    (h1 : macUnique tbl) (hok : insertUploaderRow tbl r = Except.ok tbl') :
    macUnique tbl'
    ∧ "uuid" ∈ uploaderFilteringFields
    ∧ "mac_address" ∉ uploaderFilteringFields
    ∧ (∀ (au : AuthUser) (du ou : String),
        update_detail_uploader au du ou = true → du = ou) := by
  refine ⟨?_, by decide, by decide, ?_⟩
  · unfold insertUploaderRow at hok
    by_cases hany : (tbl.any (fun x => x.mac_address == r.mac_address)) = true
    · rw [if_pos hany] at hok
      exact Except.noConfusion hok
    · rw [if_neg hany] at hok
      have htbl : tbl' = tbl ++ [r] := (Except.ok.inj hok).symm
      subst htbl
      rw [macUnique, List.pairwise_append]
      refine ⟨h1, List.pairwise_singleton _ _, ?_⟩
      intro x hx y hy
      rw [List.mem_singleton.mp hy]
      intro hcon
      exact hany (List.any_eq_true.mpr ⟨x, hx, by simp [hcon]⟩)
  · intro au du ou h
    unfold update_detail_uploader at h
    rw [Bool.and_eq_true] at h
    exact eq_of_beq h.2

/-- Witness for C8: a concrete insert keeps MAC uniqueness, and the filtering
facts hold. -/
theorem c8_mac_unique_witness :
    macUnique [(⟨1, "00:11:22:33:44:55", "u-1"⟩ : UploaderRow)]
    ∧ "uuid" ∈ uploaderFilteringFields := by
  have h := c8_mac_unique_and_uuid_identity [] ⟨1, "00:11:22:33:44:55", "u-1"⟩
    [⟨1, "00:11:22:33:44:55", "u-1"⟩] (by simp [macUnique]) rfl
  exact ⟨h.1, h.2.1⟩
